import Mathlib

/-!
Verification of the configuration resolver in `src/frontend/vite.config.js`.

The source file is a Vite build-tool configuration.  We embed it shallowly:

* absolute filesystem paths are lists of components (`FsPath`);
* the Node `path` functions used by the source (`path.basename`,
  `path.resolve`) are translated into Lean functions on `FsPath`;
* the JavaScript values that can appear in `import.meta.env.CI` are a small
  inductive `JSValue` together with JavaScript truthiness;
* the whole exported configuration object becomes a Lean structure
  `ViteConfig`, and the evaluation of the module at tool startup becomes the
  function `resolve : ResolveInputs → Except ConfigError ViteConfig`.
-/

/-- An absolute filesystem path, as its list of components below the root.
`[]` is the root `/`; `["work","apps"]` is `/work/apps`. -/
abbrev FsPath := List String

/-- Node's `path.basename` on an absolute path: the last component, and the
empty string for the root (`path.basename("/") === ""`). -/
def basename (p : FsPath) : String := p.getLast?.getD ""

/-- The parent directory of an absolute path; the parent of the root is the
root, matching Node's resolution of `".."` against `/`. -/
def parentDir (p : FsPath) : FsPath := p.dropLast

/-- Resolve a relative path, given as a list of segments, against an absolute
base: a `".."` segment moves to the parent directory, any other segment
descends.  This is the part of Node's `path.resolve` the source exercises. -/
def resolveRel (base : FsPath) : List String → FsPath
  | [] => base
  | s :: rest =>
    if s = ".." then resolveRel (parentDir base) rest
    else resolveRel (base ++ [s]) rest

/-- A JavaScript value, as far as needed for the truthiness test that the
conditional expression on line 22 of the source performs. -/
inductive JSValue where
  | undefined : JSValue
  | null : JSValue
  | bool : Bool → JSValue
  | num : Int → JSValue
  | str : String → JSValue
deriving DecidableEq

/-- JavaScript truthiness of a `JSValue`. -/
def truthy : JSValue → Bool
  | .undefined => false
  | .null => false
  | .bool b => b
  | .num n => n != 0
  | .str s => s != ""

/-- The contents of the external site-configuration JSON file
`../../../sites/common_site_config.json`: the `webserver_port` field may be
present (`some p`) or absent (`none`). -/
structure SiteConfig where
  webserver_port : Option Nat
deriving DecidableEq

/-- The error kinds of the resolver.  `ConfigurationLoadError` is raised by
the module loader when the JSON import on line 5 cannot be satisfied. -/
inductive ConfigError where
  | ConfigurationLoadError : ConfigError
  | PathResolutionError : ConfigError
deriving DecidableEq

/-- Modelled from the spec: the named import
`import { webserver_port } from '../../../sites/common_site_config.json'`
(line 5) is resolved by the ES-module loader, which is outside this
repository slice.  Per the spec, a missing file or a missing
`webserver_port` field makes resolution fail with a ConfigurationLoadError
before any configuration object is produced. -/
def loadWebserverPort (file : Option SiteConfig) : Except ConfigError Nat :=
  match file with
  | none => .error .ConfigurationLoadError
  | some cfg =>
    match cfg.webserver_port with
    | none => .error .ConfigurationLoadError
    | some p => .ok p

/-- Modelled from the spec: `getProxyOptions` is imported from
`frappe-ui/src/utils/vite-dev-server`, which is not part of this repository
slice.  The spec only states that the dev-server proxy rules are derived
from the port handed to it, the proxy target resolving to exactly that
port. -/
structure ProxyOptions where
  targetPort : Nat
deriving DecidableEq

/-- Modelled from the spec: construction of the proxy rules from the port
(external collaborator; see `ProxyOptions`). -/
def getProxyOptions (port : Nat) : ProxyOptions := ⟨port⟩

/-- The `server` section of the configuration (lines 9-12). -/
structure ServerConfig where
  port : Nat
  proxy : ProxyOptions
deriving DecidableEq

/-- The `build` section of the configuration (lines 18-23).  `outDir` keeps
the relative segments exactly as the source writes them; `sourcemap` is
either a boolean (`Sum.inl`) or a named mode such as `"inline"`
(`Sum.inr`). -/
structure BuildOptions where
  outDir : List String
  emptyOutDir : Bool
  target : String
  sourcemap : Sum Bool String
deriving DecidableEq

/-- The whole configuration object exported on lines 7-27.  Plugins are
opaque to this development and recorded by name; `resolveAlias` is the
`resolve.alias` mapping from import prefixes to absolute paths. -/
structure ViteConfig where
  plugins : List String
  server : ServerConfig
  resolveAlias : List (String × FsPath)
  build : BuildOptions
  optimizeDeps : List String
deriving DecidableEq

/-- The inputs of one configuration resolution: the current working
directory (against which `path.resolve('..')` on line 19 resolves), the
directory holding the configuration file (`__dirname`, line 15), the value
of `import.meta.env` at evaluation time (`none` when the object is absent;
`some ci` when present with `ci` the value of its `CI` property, `none`
for an absent property), the process environment's CI variable (never read
by the source, which mentions `process.env` nowhere), and the external
site-configuration file (`none` when the file is missing). -/
structure ResolveInputs where
  cwd : FsPath
  dirname : FsPath
  importMetaEnv : Option (Option JSValue)
  processEnvCI : Option JSValue
  siteConfigFile : Option SiteConfig
deriving DecidableEq

/-- The segments of the `outDir` template literal on line 19:
`../${path.basename(path.resolve('..'))}/public/frontend`, where
`path.resolve('..')` is the parent of the working directory. -/
def outDirSegments (cwd : FsPath) : List String :=
  [".."] ++ [basename (parentDir cwd)] ++ ["public", "frontend"]

/-- The optional chain `import.meta?.env?.CI` on line 22: `undefined` when
`import.meta.env` is absent or has no `CI` property. -/
def ciValue (importMetaEnv : Option (Option JSValue)) : JSValue :=
  match importMetaEnv with
  | none => .undefined
  | some none => .undefined
  | some (some v) => v

/-- The conditional `import.meta?.env?.CI ? false : 'inline'` on line 22. -/
def sourcemapOf (importMetaEnv : Option (Option JSValue)) : Sum Bool String :=
  if truthy (ciValue importMetaEnv) then Sum.inl false else Sum.inr "inline"

/-- Evaluation of the configuration module: first the JSON import of line 5
is resolved (failure aborts before any configuration object exists), then
the object literal of lines 7-27 is built. -/
def resolve (inp : ResolveInputs) : Except ConfigError ViteConfig :=
  match loadWebserverPort inp.siteConfigFile with
  | .error e => .error e
  | .ok port =>
    .ok {
      plugins := ["vue"]
      server := { port := 8080, proxy := getProxyOptions port }
      resolveAlias := [("@", inp.dirname ++ ["src"])]
      build := {
        outDir := outDirSegments inp.cwd
        emptyOutDir := true
        target := "es2015"
        sourcemap := sourcemapOf inp.importMetaEnv }
      optimizeDeps := ["feather-icons", "showdown", "engine.io-client"] }

/-- `underDir base p` holds when `p` is `base` itself or lies below it. -/
def underDir (base p : FsPath) : Bool := p.take base.length == base

/-- The absolute output directory: the relative `outDir` of the
configuration resolved against the project root (the working directory). -/
def outputDirectory (cwd : FsPath) : FsPath := resolveRel cwd (outDirSegments cwd)

deriving instance DecidableEq for Except

/-! ## Helper lemmas -/

/-- A successful resolution forces the exact shape of the configuration
object: some port was loaded from the external file and every other field
is as the object literal writes it. -/
theorem resolve_ok_iff (inp : ResolveInputs) (cfg : ViteConfig) :
    resolve inp = Except.ok cfg ↔
      ∃ port, loadWebserverPort inp.siteConfigFile = Except.ok port ∧
        cfg = { plugins := ["vue"]
                server := { port := 8080, proxy := getProxyOptions port }
                resolveAlias := [("@", inp.dirname ++ ["src"])]
                build := { outDir := outDirSegments inp.cwd
                           emptyOutDir := true
                           target := "es2015"
                           sourcemap := sourcemapOf inp.importMetaEnv }
                optimizeDeps := ["feather-icons", "showdown", "engine.io-client"] } := by
  unfold resolve
  cases h : loadWebserverPort inp.siteConfigFile <;> simp [h, eq_comm]

/-- Resolving the `outDir` segments against a working directory whose
parent's basename is not `".."` lands in
`<parent>/<basename parent>/public/frontend`. -/
theorem outputDirectory_eq (cwd : FsPath) (h : basename (parentDir cwd) ≠ "..") :
    outputDirectory cwd =
      parentDir cwd ++ [basename (parentDir cwd), "public", "frontend"] := by
  simp [outputDirectory, outDirSegments, resolveRel, h]

/-- A path of the form `p ++ (y :: rest)` is not under `p ++ [x]` when
`x ≠ y`. -/
theorem underDir_append_ne (p : FsPath) (x y : String) (rest : List String)
    (h : x ≠ y) : underDir (p ++ [x]) (p ++ y :: rest) = false := by
  have htake : (p ++ y :: rest).take (p.length + 1) = p ++ [y] := by
    simp [List.take_append]
  simp [underDir, htake, Ne.symm h]

/-! ## Claims -/

/-- C1: for every environment state — `import.meta.env` absent, or present
with its `CI` property absent or carrying a boolean
continuous-integration signal — the resolved configuration's
`sourceMapMode` (`build.sourcemap`) is `false` exactly when the signal is
present and true, and `"inline"` when it is false or unset. -/
theorem C1_sourcemap_ci (inp : ResolveInputs) (ci : Option (Option Bool)) (cfg : ViteConfig)
    (henv : inp.importMetaEnv = Option.map (Option.map JSValue.bool) ci)
    (hok : resolve inp = Except.ok cfg) :
    cfg.build.sourcemap =
      if ci = some (some true) then Sum.inl false else Sum.inr "inline" := by
  obtain ⟨port, -, hcfg⟩ := (resolve_ok_iff inp cfg).mp hok
  subst hcfg
  rcases ci with _ | (_ | b)
  · simp [sourcemapOf, henv, ciValue, truthy]
  · simp [sourcemapOf, henv, ciValue, truthy]
  · cases b <;> simp [sourcemapOf, henv, ciValue, truthy]

/-- C1 witness: at a concrete input with the CI signal present and true,
the resolved source-map mode is `false`. -/
theorem C1_witness :
    ({ plugins := ["vue"]
       server := { port := 8080, proxy := getProxyOptions 8000 }
       resolveAlias := [("@", (["work", "apps", "myapp", "frontend"] : FsPath) ++ ["src"])]
       build := { outDir := outDirSegments ["work", "apps", "myapp", "frontend"]
                  emptyOutDir := true
                  target := "es2015"
                  sourcemap := sourcemapOf (some (some (JSValue.bool true))) }
       optimizeDeps := ["feather-icons", "showdown", "engine.io-client"] : ViteConfig}).build.sourcemap =
      if (some (some true) : Option (Option Bool)) = some (some true) then Sum.inl false
      else Sum.inr "inline" :=
  C1_sourcemap_ci
    { cwd := ["work", "apps", "myapp", "frontend"]
      dirname := ["work", "apps", "myapp", "frontend"]
      importMetaEnv := some (some (JSValue.bool true))
      processEnvCI := some (JSValue.bool true)
      siteConfigFile := some ⟨some 8000⟩ }
    (some (some true)) _ rfl rfl

/-- C2 counterexample: with working directory `/foo/foo` (a project
directory whose name equals its parent's name) resolution succeeds, yet
the resolved output directory `/foo/foo/public/frontend` is nested inside
the project directory, not inside a sibling of it, refuting the claim for
this filesystem layout. -/
theorem C2_counterexample :
    (resolve { cwd := ["foo", "foo"]
               dirname := ["foo", "foo"]
               importMetaEnv := none
               processEnvCI := none
               siteConfigFile := some ⟨some 8000⟩ }).isOk = true ∧
    outputDirectory ["foo", "foo"] = ["foo", "foo", "public", "frontend"] ∧
    underDir ["foo", "foo"] (outputDirectory ["foo", "foo"]) = true := by
  refine ⟨rfl, by decide, by decide⟩

/-- C2 amended: whenever resolution succeeds and the parent of the working
directory has a basename that is neither `".."` nor equal to the working
directory's own basename, the configuration's `outDir`, resolved against
the working directory, is exactly
`<parent>/<basename parent>/public/frontend` — it ends in
`public/frontend`, lies inside the sibling directory named after the
parent, and is not nested inside the project directory. -/
theorem C2_outDir_amended (inp : ResolveInputs) (cfg : ViteConfig)
    (hok : resolve inp = Except.ok cfg)
    (h1 : basename (parentDir inp.cwd) ≠ "..")
    (h2 : basename (parentDir inp.cwd) ≠ basename inp.cwd) :
    resolveRel inp.cwd cfg.build.outDir =
      parentDir inp.cwd ++ [basename (parentDir inp.cwd), "public", "frontend"] ∧
    underDir inp.cwd (resolveRel inp.cwd cfg.build.outDir) = false := by
  obtain ⟨port, -, hcfg⟩ := (resolve_ok_iff inp cfg).mp hok
  subst hcfg
  have hout : resolveRel inp.cwd (outDirSegments inp.cwd) =
      parentDir inp.cwd ++ [basename (parentDir inp.cwd), "public", "frontend"] :=
    outputDirectory_eq inp.cwd h1
  refine ⟨hout, ?_⟩
  have hne : inp.cwd ≠ [] := by
    intro hnil
    exact h2 (by simp [hnil, basename, parentDir])
  have hsplit : parentDir inp.cwd ++ [basename inp.cwd] = inp.cwd := by
    simpa [parentDir, basename, List.getLast?_eq_getLast_of_ne_nil hne] using
      List.dropLast_append_getLast hne
  show underDir inp.cwd (resolveRel inp.cwd (outDirSegments inp.cwd)) = false
  rw [hout]
  nth_rewrite 1 [← hsplit]
  exact underDir_append_ne _ _ _ _ (Ne.symm h2)

/-- C2 witness: at the concrete working directory
`/work/apps/myapp/frontend` with a valid external file, the amended
characterisation of the output directory holds. -/
theorem C2_witness :
    resolveRel ["work", "apps", "myapp", "frontend"]
        ({ plugins := ["vue"]
           server := { port := 8080, proxy := getProxyOptions 8000 }
           resolveAlias := [("@", (["work", "apps", "myapp", "frontend"] : FsPath) ++ ["src"])]
           build := { outDir := outDirSegments ["work", "apps", "myapp", "frontend"]
                      emptyOutDir := true
                      target := "es2015"
                      sourcemap := sourcemapOf none }
           optimizeDeps := ["feather-icons", "showdown", "engine.io-client"] : ViteConfig}).build.outDir =
      parentDir ["work", "apps", "myapp", "frontend"] ++
        [basename (parentDir ["work", "apps", "myapp", "frontend"]), "public", "frontend"] ∧
    underDir ["work", "apps", "myapp", "frontend"]
        (resolveRel ["work", "apps", "myapp", "frontend"]
          ({ plugins := ["vue"]
             server := { port := 8080, proxy := getProxyOptions 8000 }
             resolveAlias := [("@", (["work", "apps", "myapp", "frontend"] : FsPath) ++ ["src"])]
             build := { outDir := outDirSegments ["work", "apps", "myapp", "frontend"]
                        emptyOutDir := true
                        target := "es2015"
                        sourcemap := sourcemapOf none }
             optimizeDeps := ["feather-icons", "showdown", "engine.io-client"] : ViteConfig}).build.outDir) = false :=
  C2_outDir_amended
    { cwd := ["work", "apps", "myapp", "frontend"]
      dirname := ["work", "apps", "myapp", "frontend"]
      importMetaEnv := none
      processEnvCI := none
      siteConfigFile := some ⟨some 8000⟩ }
    _ rfl (by decide) (by decide)

/-- C3 counterexample: with project root `/work/apps/myapp/frontend`,
resolution succeeds but the resolved output directory is not the claimed
`/work/apps/myapp/public/frontend`. -/
theorem C3_counterexample :
    (resolve { cwd := ["work", "apps", "myapp", "frontend"]
               dirname := ["work", "apps", "myapp", "frontend"]
               importMetaEnv := none
               processEnvCI := none
               siteConfigFile := some ⟨some 8000⟩ }).map
        (fun c => resolveRel ["work", "apps", "myapp", "frontend"] c.build.outDir) ≠
      Except.ok ["work", "apps", "myapp", "public", "frontend"] := by
  decide

/-- C3 amended: with project root `/work/apps/myapp/frontend`, resolution
yields the output directory `/work/apps/myapp/myapp/public/frontend`
(the `public/frontend` subdirectory of the sibling directory named after
the parent, `myapp`). -/
theorem C3_outDir_myapp :
    (resolve { cwd := ["work", "apps", "myapp", "frontend"]
               dirname := ["work", "apps", "myapp", "frontend"]
               importMetaEnv := none
               processEnvCI := none
               siteConfigFile := some ⟨some 8000⟩ }).map
        (fun c => resolveRel ["work", "apps", "myapp", "frontend"] c.build.outDir) =
      Except.ok ["work", "apps", "myapp", "myapp", "public", "frontend"] := by
  decide

/-- C4: whenever the external site-configuration JSON file is missing or
lacks the `webserver_port` field, resolution fails with
`ConfigurationLoadError` and no configuration object is produced. -/
theorem C4_load_error (inp : ResolveInputs)
    (h : inp.siteConfigFile = none ∨ inp.siteConfigFile = some ⟨none⟩) :
    resolve inp = Except.error ConfigError.ConfigurationLoadError := by
  rcases h with h | h <;> simp [resolve, loadWebserverPort, h]

/-- C4 witness: at a concrete input whose external file is missing,
resolution fails with `ConfigurationLoadError`. -/
theorem C4_witness :
    resolve { cwd := ["work", "apps", "myapp", "frontend"]
              dirname := ["work", "apps", "myapp", "frontend"]
              importMetaEnv := none
              processEnvCI := none
              siteConfigFile := none } =
      Except.error ConfigError.ConfigurationLoadError :=
  C4_load_error _ (Or.inl rfl)

/-- C5: for every external JSON input carrying `webserver_port = P`, the
resolved configuration's proxy rules are exactly `getProxyOptions` applied
to `P`, and the proxy target port is `P`. -/
theorem C5_proxy_port (inp : ResolveInputs) (p : Nat) (cfg : ViteConfig)
    (hfile : inp.siteConfigFile = some ⟨some p⟩)
    (hok : resolve inp = Except.ok cfg) :
    cfg.server.proxy = getProxyOptions p ∧ cfg.server.proxy.targetPort = p := by
  obtain ⟨port, hport, hcfg⟩ := (resolve_ok_iff inp cfg).mp hok
  have hpp : p = port := by
    simpa [loadWebserverPort, hfile] using hport
  subst hpp
  subst hcfg
  exact ⟨rfl, rfl⟩

/-- C5 witness: with external JSON `{"webserver_port": 8000}` the proxy
target resolves to port 8000. -/
theorem C5_witness :
    ({ plugins := ["vue"]
       server := { port := 8080, proxy := getProxyOptions 8000 }
       resolveAlias := [("@", (["work", "apps", "myapp", "frontend"] : FsPath) ++ ["src"])]
       build := { outDir := outDirSegments ["work", "apps", "myapp", "frontend"]
                  emptyOutDir := true
                  target := "es2015"
                  sourcemap := sourcemapOf none }
       optimizeDeps := ["feather-icons", "showdown", "engine.io-client"] : ViteConfig}).server.proxy =
        getProxyOptions 8000 ∧
    ({ plugins := ["vue"]
       server := { port := 8080, proxy := getProxyOptions 8000 }
       resolveAlias := [("@", (["work", "apps", "myapp", "frontend"] : FsPath) ++ ["src"])]
       build := { outDir := outDirSegments ["work", "apps", "myapp", "frontend"]
                  emptyOutDir := true
                  target := "es2015"
                  sourcemap := sourcemapOf none }
       optimizeDeps := ["feather-icons", "showdown", "engine.io-client"] : ViteConfig}).server.proxy.targetPort = 8000 :=
  C5_proxy_port
    { cwd := ["work", "apps", "myapp", "frontend"]
      dirname := ["work", "apps", "myapp", "frontend"]
      importMetaEnv := none
      processEnvCI := none
      siteConfigFile := some ⟨some 8000⟩ }
    8000 _ rfl rfl

/-- C6: whenever resolution succeeds, the path-alias table maps exactly
the prefix `"@"` to the `src` subdirectory of the directory that holds
the configuration file (`__dirname`), independently of the working
directory or any other input. -/
theorem C6_alias_src (inp : ResolveInputs) (cfg : ViteConfig)
    (hok : resolve inp = Except.ok cfg) :
    cfg.resolveAlias = [("@", inp.dirname ++ ["src"])] := by
  obtain ⟨port, -, hcfg⟩ := (resolve_ok_iff inp cfg).mp hok
  subst hcfg
  rfl

/-- C6 witness: with the configuration file living in
`/work/apps/myapp/frontend` and the working directory elsewhere, `"@"`
maps to `/work/apps/myapp/frontend/src`. -/
theorem C6_witness :
    ({ plugins := ["vue"]
       server := { port := 8080, proxy := getProxyOptions 8000 }
       resolveAlias := [("@", (["work", "apps", "myapp", "frontend"] : FsPath) ++ ["src"])]
       build := { outDir := outDirSegments ["somewhere", "else"]
                  emptyOutDir := true
                  target := "es2015"
                  sourcemap := sourcemapOf none }
       optimizeDeps := ["feather-icons", "showdown", "engine.io-client"] : ViteConfig}).resolveAlias =
      [("@", (["work", "apps", "myapp", "frontend"] : FsPath) ++ ["src"])] :=
  C6_alias_src
    { cwd := ["somewhere", "else"]
      dirname := ["work", "apps", "myapp", "frontend"]
      importMetaEnv := none
      processEnvCI := none
      siteConfigFile := some ⟨some 8000⟩ }
    _ rfl

/-- C7: whenever resolution succeeds, the configuration directs the build
tool to clear the output directory before each build
(`build.emptyOutDir = true`). -/
theorem C7_emptyOutDir (inp : ResolveInputs) (cfg : ViteConfig)
    (hok : resolve inp = Except.ok cfg) :
    cfg.build.emptyOutDir = true := by
  obtain ⟨port, -, hcfg⟩ := (resolve_ok_iff inp cfg).mp hok
  subst hcfg
  rfl

/-- C7 witness: at a concrete input, `emptyOutDir` is `true`. -/
theorem C7_witness :
    ({ plugins := ["vue"]
       server := { port := 8080, proxy := getProxyOptions 8000 }
       resolveAlias := [("@", (["work", "apps", "myapp", "frontend"] : FsPath) ++ ["src"])]
       build := { outDir := outDirSegments ["work", "apps", "myapp", "frontend"]
                  emptyOutDir := true
                  target := "es2015"
                  sourcemap := sourcemapOf none }
       optimizeDeps := ["feather-icons", "showdown", "engine.io-client"] : ViteConfig}).build.emptyOutDir = true :=
  C7_emptyOutDir
    { cwd := ["work", "apps", "myapp", "frontend"]
      dirname := ["work", "apps", "myapp", "frontend"]
      importMetaEnv := none
      processEnvCI := none
      siteConfigFile := some ⟨some 8000⟩ }
    _ rfl

/-- C8: resolution is deterministic and idempotent — two runs with
identical inputs (working directory, configuration-file directory,
CI signal, process environment and external JSON contents) produce
identical results, failures included.  The embedding makes this literal:
`resolve` is a pure function of its declared inputs, because the source
reads nothing else and mutates nothing. -/
theorem C8_deterministic (i j : ResolveInputs) (h : i = j) :
    resolve i = resolve j := by
  rw [h]

/-- C8 witness: two runs at an identical concrete input agree. -/
theorem C8_witness :
    resolve { cwd := ["work", "apps", "myapp", "frontend"]
              dirname := ["work", "apps", "myapp", "frontend"]
              importMetaEnv := some (some (JSValue.str "1"))
              processEnvCI := none
              siteConfigFile := some ⟨some 8000⟩ } =
    resolve { cwd := ["work", "apps", "myapp", "frontend"]
              dirname := ["work", "apps", "myapp", "frontend"]
              importMetaEnv := some (some (JSValue.str "1"))
              processEnvCI := none
              siteConfigFile := some ⟨some 8000⟩ } :=
  C8_deterministic _ _ rfl

/-- C9: whenever resolution succeeds, the dev-server port is the constant
8080, whatever the environment, external JSON contents and filesystem
layout were. -/
theorem C9_port_8080 (inp : ResolveInputs) (cfg : ViteConfig)
    (hok : resolve inp = Except.ok cfg) :
    cfg.server.port = 8080 := by
  obtain ⟨port, -, hcfg⟩ := (resolve_ok_iff inp cfg).mp hok
  subst hcfg
  rfl

/-- C9 witness: at a concrete input (external port 9999), the dev-server
port is still 8080. -/
theorem C9_witness :
    ({ plugins := ["vue"]
       server := { port := 8080, proxy := getProxyOptions 9999 }
       resolveAlias := [("@", (["work", "apps", "myapp", "frontend"] : FsPath) ++ ["src"])]
       build := { outDir := outDirSegments ["work", "apps", "myapp", "frontend"]
                  emptyOutDir := true
                  target := "es2015"
                  sourcemap := sourcemapOf none }
       optimizeDeps := ["feather-icons", "showdown", "engine.io-client"] : ViteConfig}).server.port = 8080 :=
  C9_port_8080
    { cwd := ["work", "apps", "myapp", "frontend"]
      dirname := ["work", "apps", "myapp", "frontend"]
      importMetaEnv := none
      processEnvCI := none
      siteConfigFile := some ⟨some 9999⟩ }
    _ rfl

/-- C10: whenever `import.meta.env` is absent at configuration-evaluation
time, the optional chain makes the CI check read `undefined`, so the
source-map mode resolves to `"inline"` — for every value of the process
environment's CI variable, which the source never reads. -/
theorem C10_env_absent (inp : ResolveInputs) (cfg : ViteConfig)
    (henv : inp.importMetaEnv = none)
    (hok : resolve inp = Except.ok cfg) :
    cfg.build.sourcemap = Sum.inr "inline" := by
  obtain ⟨port, -, hcfg⟩ := (resolve_ok_iff inp cfg).mp hok
  subst hcfg
  simp [sourcemapOf, henv, ciValue, truthy]

/-- C10 witness: with `import.meta.env` absent but `CI=true` set in the
process environment, the source-map mode is still `"inline"`. -/
theorem C10_witness :
    ({ plugins := ["vue"]
       server := { port := 8080, proxy := getProxyOptions 8000 }
       resolveAlias := [("@", (["work", "apps", "myapp", "frontend"] : FsPath) ++ ["src"])]
       build := { outDir := outDirSegments ["work", "apps", "myapp", "frontend"]
                  emptyOutDir := true
                  target := "es2015"
                  sourcemap := sourcemapOf none }
       optimizeDeps := ["feather-icons", "showdown", "engine.io-client"] : ViteConfig}).build.sourcemap =
      Sum.inr "inline" :=
  C10_env_absent
    { cwd := ["work", "apps", "myapp", "frontend"]
      dirname := ["work", "apps", "myapp", "frontend"]
      importMetaEnv := none
      processEnvCI := some (JSValue.bool true)
      siteConfigFile := some ⟨some 8000⟩ }
    _ rfl rfl
